import Mathlib

/-!
# Verification of `src/blpapi/ffi_utils.c` (blpapi-python FFI bridge)

This file shallowly embeds the C translation unit `ffi_utils.c`:

* the element-to-Python conversion pipeline (`getScalarValue`,
  `complexElementToPy`, `arrayElementToPy`, `blpapi_Element_toPy`), and
* the managed-pointer lifetime bridge (`managerFunc`, `setmptr`,
  `is_known_obj`).

The native blpapi C SDK (headers `blpapi_element.h`, `blpapi_correlationid.h`)
is an external dependency: a native element is modelled as an inductive tree
`Element` whose fields record what each accessor would return, with `Option`
marking a non-zero (failing) native status.  CPython objects are modelled at
two levels:

* a pure value level (`PyVal`, conversions return `Except PyErr PyVal`),
  which captures the produced values and the raised errors; and
* a reference-counting level (`Heap`, conversions return object ids), which
  additionally mirrors every `Py_INCREF`/`Py_DECREF`/`Py_XDECREF` of the C
  code, including the stale local variables on the `ERROR` cleanup paths.
-/

set_option autoImplicit false

namespace FfiUtils

/-! ## Datatype tags

Numeric values of the `BLPAPI_DATATYPE_*` constants from the external blpapi
C headers.  Only their distinctness matters to the dispatch logic below. -/

def BLPAPI_DATATYPE_BOOL : Int := 1
def BLPAPI_DATATYPE_CHAR : Int := 2
def BLPAPI_DATATYPE_BYTE : Int := 3
def BLPAPI_DATATYPE_INT32 : Int := 4
def BLPAPI_DATATYPE_INT64 : Int := 5
def BLPAPI_DATATYPE_FLOAT32 : Int := 6
def BLPAPI_DATATYPE_FLOAT64 : Int := 7
def BLPAPI_DATATYPE_STRING : Int := 8
def BLPAPI_DATATYPE_BYTEARRAY : Int := 9
def BLPAPI_DATATYPE_DATE : Int := 10
def BLPAPI_DATATYPE_TIME : Int := 11
def BLPAPI_DATATYPE_DECIMAL : Int := 12
def BLPAPI_DATATYPE_DATETIME : Int := 13
def BLPAPI_DATATYPE_ENUMERATION : Int := 14
def BLPAPI_DATATYPE_SEQUENCE : Int := 15
def BLPAPI_DATATYPE_CHOICE : Int := 16
def BLPAPI_DATATYPE_CORRELATION_ID : Int := 17

/-! ## Native data model -/

/-- `blpapi_Datetime_t`: calendar parts of a native datetime.  All fields are
unsigned in the C struct except `offset` (a signed 16-bit minute offset).
`parts` is the parts bitmask; `parts = 0` means "no value". -/
structure BlpapiDatetime where
  parts : Nat
  hours : Nat
  minutes : Nat
  seconds : Nat
  milliSeconds : Nat
  month : Nat
  day : Nat
  year : Nat
  offset : Int
deriving DecidableEq, Repr

/-- `blpapi_HighPrecisionDatetime_t`: a datetime plus picosecond precision. -/
structure HighPrecisionDatetime where
  datetime : BlpapiDatetime
  picoseconds : Nat
deriving DecidableEq, Repr

/-- One native scalar value stored in an element, as the typed accessors of
the blpapi C API would deliver it.  `blpapi_Float64_t` values pass through the
bridge unchanged (no arithmetic is performed on them), so the carrier of
`floatV` is abstracted as `Int` (an opaque 64-bit pattern). -/
inductive Scalar where
  | boolV (b : Bool)
  | intV (i : Int)
  | floatV (f : Int)
  | strV (s : String)
  | bytesV (bs : List Nat)
  | dtV (d : HighPrecisionDatetime)
deriving DecidableEq, Repr

/-- A native `blpapi_Element_t` node, modelled by what its accessors return:

* `datatype`, the three shape flags, and the complex-type flag of the schema
  type definition reachable from the element's definition;
* `name`: what `blpapi_Element_nameString` returns;
* `scalarValues`: the per-index results of the typed scalar accessors
  (`none` = non-zero native status at that index);
* `valueElements`: the per-index results of `blpapi_Element_getValueAsElement`;
* `subElements`: the per-index results of `blpapi_Element_getElementAt`. -/
inductive Element where
  | mk (datatype : Int)
       (complexFlag : Bool) (arrayFlag : Bool) (nullFlag : Bool)
       (typeIsComplexFlag : Bool)
       (name : String)
       (scalarValues : List (Option Scalar))
       (valueElements : List (Option Element))
       (subElements : List (Option Element))

/-- `blpapi_Element_datatype`. -/
def Element.datatype : Element → Int
  | .mk d _ _ _ _ _ _ _ _ => d

/-- `blpapi_Element_isComplexType`. -/
def Element.isComplexType : Element → Bool
  | .mk _ c _ _ _ _ _ _ _ => c

/-- `blpapi_Element_isArray`. -/
def Element.isArray : Element → Bool
  | .mk _ _ a _ _ _ _ _ _ => a

/-- `blpapi_Element_isNull`. -/
def Element.isNull : Element → Bool
  | .mk _ _ _ n _ _ _ _ _ => n

/-- `blpapi_SchemaTypeDefinition_isComplexType` applied to
`blpapi_SchemaElementDefinition_type (blpapi_Element_definition e)`. -/
def Element.typeIsComplex : Element → Bool
  | .mk _ _ _ _ t _ _ _ _ => t

/-- `blpapi_Element_nameString`. -/
def Element.name : Element → String
  | .mk _ _ _ _ _ nm _ _ _ => nm

def Element.scalarValues : Element → List (Option Scalar)
  | .mk _ _ _ _ _ _ sv _ _ => sv

def Element.valueElements : Element → List (Option Element)
  | .mk _ _ _ _ _ _ _ ve _ => ve

def Element.subElements : Element → List (Option Element)
  | .mk _ _ _ _ _ _ _ _ se => se

/-- `blpapi_Element_numElements`: the number of sub-elements reachable through
`blpapi_Element_getElementAt`. -/
def Element.numElements (e : Element) : Nat := e.subElements.length

/-- `blpapi_Element_numValues`: the number of stored values.  A native element
stores either complex values (reached through `getValueAsElement`) or scalar
values (reached through the typed accessors); which pool is populated is
decided by the same schema-type complexity flag that `arrayElementToPy`
branches on. -/
def Element.numValues (e : Element) : Nat :=
  if e.typeIsComplex then e.valueElements.length else e.scalarValues.length

/-- `blpapi_Element_getValueAsBool` (result `none` = non-zero status). -/
def blpapi_Element_getValueAsBool (e : Element) (index : Nat) : Option Bool :=
  match e.scalarValues[index]? with
  | some (some (.boolV b)) => some b
  | _ => none

/-- `blpapi_Element_getValueAsInt64`.  `BYTE`, `INT32` and `INT64` values are
all delivered through this 64-bit accessor (widening is always exact). -/
def blpapi_Element_getValueAsInt64 (e : Element) (index : Nat) : Option Int :=
  match e.scalarValues[index]? with
  | some (some (.intV i)) => some i
  | _ => none

/-- `blpapi_Element_getValueAsFloat64`. -/
def blpapi_Element_getValueAsFloat64 (e : Element) (index : Nat) : Option Int :=
  match e.scalarValues[index]? with
  | some (some (.floatV f)) => some f
  | _ => none

/-- `blpapi_Element_getValueAsString` (also used for `CHAR` and
`ENUMERATION` values). -/
def blpapi_Element_getValueAsString (e : Element) (index : Nat) : Option String :=
  match e.scalarValues[index]? with
  | some (some (.strV s)) => some s
  | _ => none

/-- `blpapi_Element_getValueAsBytes`: a `(pointer, length)` pair, modelled as
the byte list it designates. -/
def blpapi_Element_getValueAsBytes (e : Element) (index : Nat) : Option (List Nat) :=
  match e.scalarValues[index]? with
  | some (some (.bytesV bs)) => some bs
  | _ => none

/-- `blpapi_Element_getValueAsHighPrecisionDatetime`. -/
def blpapi_Element_getValueAsHighPrecisionDatetime (e : Element) (index : Nat) :
    Option HighPrecisionDatetime :=
  match e.scalarValues[index]? with
  | some (some (.dtV d)) => some d
  | _ => none

/-- `blpapi_Element_getValueAsElement`. -/
def blpapi_Element_getValueAsElement (e : Element) (index : Nat) : Option Element :=
  match e.valueElements[index]? with
  | some (some sub) => some sub
  | _ => none

/-- `blpapi_Element_getElementAt`. -/
def blpapi_Element_getElementAt (e : Element) (index : Nat) : Option Element :=
  match e.subElements[index]? with
  | some (some sub) => some sub
  | _ => none

/-! ## Python value model -/

/-- A raised Python exception.  Every error in `ffi_utils.c` is
`PyErr_SetString(PyExc_Exception, msg)`; only the message distinguishes
them. -/
structure PyErr where
  msg : String
deriving DecidableEq, Repr

/-- The Python values produced by the bridge.  `time` is the recorded
invocation of the external helper `_DatetimeUtil.toPyTimeFromInts`
(`blpapi/datetime.py`, not part of this translation unit); per the spec it
receives exactly these 9 integer components, so the constructor records the
actual arguments passed by `PyObject_CallFunction`. -/
inductive PyVal where
  | none
  | bool (b : Bool)
  | int (i : Int)
  | float (f : Int)
  | str (s : String)
  | bytes (bs : List Nat)
  | time (parts : Nat) (offset : Int) (year month day hours minutes seconds : Nat)
         (microseconds : Nat)
  | list (items : List PyVal)
  | dict (entries : List (String × PyVal))

/-! ## The lazily resolved datetime helper (static variables, lines 93-132) -/

/-- Outcome of the three Python lookups used to resolve the datetime helper:
`PyImport_ImportModule "blpapi.datetime"`, `PyObject_GetAttr _ "_DatetimeUtil"`
and `PyObject_GetAttr _ "toPyTimeFromInts"`.  `none` models a `NULL` return;
`some n` models the returned object (an opaque reference). -/
structure PyEnv where
  importBlpapiDatetime : Option Nat
  getDatetimeUtilAttr : Option Nat
  getToPyTimeFromIntsAttr : Option Nat
deriving DecidableEq, Repr

/-- The three `static PyObject*` variables of the `DATE`/`TIME`/`DATETIME`
case of `getScalarValue`. -/
structure DtCache where
  blpapiDatetimeModule : Option Nat
  datetimeUtil : Option Nat
  convertToPyTime : Option Nat
deriving DecidableEq, Repr

/-- Lines 102-132 of `getScalarValue`: resolve `toPyTimeFromInts` once,
caching it in the static variables.  The guard is `convertToPyTime == NULL`;
each failing step returns `NULL` with an error set, after assigning the
statics exactly as the C code does. -/
def resolveConvertToPyTime (env : PyEnv) (cache : DtCache) : DtCache × Except PyErr Nat :=
  match cache.convertToPyTime with
  | some f => (cache, .ok f)
  | Option.none =>
    match env.importBlpapiDatetime with
    | Option.none =>
      ({ cache with blpapiDatetimeModule := Option.none },
       .error ⟨"Internal error getting blpapi.datetime"⟩)
    | some m =>
      let cache1 : DtCache := { cache with blpapiDatetimeModule := some m }
      match env.getDatetimeUtilAttr with
      | Option.none =>
        ({ cache1 with datetimeUtil := Option.none },
         .error ⟨"Internal error getting _DatetimeUtil"⟩)
      | some u =>
        let cache2 : DtCache := { cache1 with datetimeUtil := some u }
        match env.getToPyTimeFromIntsAttr with
        | Option.none =>
          ({ cache2 with convertToPyTime := Option.none },
           .error ⟨"Internal error getting 'toPyTimeFromInts'"⟩)
        | some f =>
          ({ cache2 with convertToPyTime := some f }, .ok f)

/-- The `DATE`/`TIME`/`DATETIME` case body of `getScalarValue`
(lines 90-162): resolve the helper, read the high-precision datetime, return
`None` when the parts bitmask is empty, otherwise call the helper with the
9 integer components (sub-second component
`milliSeconds * 1000 + picoseconds / 1000000`, truncating division). -/
def datetimeScalarToPy (env : PyEnv) (cache : DtCache) (element : Element)
    (index : Nat) : Except PyErr PyVal :=
  match (resolveConvertToPyTime env cache).2 with
  | .error err => .error err
  | .ok _convertToPyTime =>
    match blpapi_Element_getValueAsHighPrecisionDatetime element index with
    | Option.none => .error ⟨"Internal error getting datetime"⟩
    | some buf =>
      if buf.datetime.parts = 0 then
        .ok PyVal.none
      else
        .ok (.time buf.datetime.parts buf.datetime.offset buf.datetime.year
          buf.datetime.month buf.datetime.day buf.datetime.hours
          buf.datetime.minutes buf.datetime.seconds
          (buf.datetime.milliSeconds * 1000 + buf.picoseconds / 1000000))

/-- `getScalarValue(element, index)` (lines 19-170): dispatch on the declared
datatype tag, read the value through the matching typed accessor, and build
the Python value.  `SEQUENCE`, `CHOICE` and every unrecognized tag fall into
the `default` case. -/
def getScalarValue (env : PyEnv) (cache : DtCache) (element : Element)
    (index : Nat) : Except PyErr PyVal :=
  let datatype := element.datatype
  if datatype = BLPAPI_DATATYPE_BOOL then
    match blpapi_Element_getValueAsBool element index with
    | Option.none => .error ⟨"Internal error getting bool"⟩
    | some boolBuffer => .ok (.bool boolBuffer)
  else if datatype = BLPAPI_DATATYPE_BYTE ∨ datatype = BLPAPI_DATATYPE_INT32 ∨
      datatype = BLPAPI_DATATYPE_INT64 then
    match blpapi_Element_getValueAsInt64 element index with
    | Option.none => .error ⟨"Internal error getting int"⟩
    | some int64Buffer => .ok (.int int64Buffer)
  else if datatype = BLPAPI_DATATYPE_FLOAT32 ∨ datatype = BLPAPI_DATATYPE_FLOAT64 then
    match blpapi_Element_getValueAsFloat64 element index with
    | Option.none => .error ⟨"Internal error getting float"⟩
    | some floatBuffer => .ok (.float floatBuffer)
  else if datatype = BLPAPI_DATATYPE_CHAR ∨ datatype = BLPAPI_DATATYPE_STRING ∨
      datatype = BLPAPI_DATATYPE_ENUMERATION then
    match blpapi_Element_getValueAsString element index with
    | Option.none => .error ⟨"Internal error getting string"⟩
    | some strValue => .ok (.str strValue)
  else if datatype = BLPAPI_DATATYPE_BYTEARRAY then
    match blpapi_Element_getValueAsBytes element index with
    | Option.none => .error ⟨"Internal error getting bytes"⟩
    | some bytesValue => .ok (.bytes bytesValue)
  else if datatype = BLPAPI_DATATYPE_DATE ∨ datatype = BLPAPI_DATATYPE_TIME ∨
      datatype = BLPAPI_DATATYPE_DATETIME then
    datetimeScalarToPy env cache element index
  else
    .error ⟨"Internal datatype error"⟩

/-! ## Python dict and list operations (value level) -/

/-- `PyDict_SetItemString` at the value level: CPython stores the value under
the key, replacing (in place) the entry of an already-present key. -/
def dictSet : List (String × PyVal) → String → PyVal → List (String × PyVal)
  | [], k, v => [(k, v)]
  | (k2, v2) :: rest, k, v =>
    if k2 = k then (k, v) :: rest else (k2, v2) :: dictSet rest k v

/-- Reading a key from the value-level dict model. -/
def dictLookup : List (String × PyVal) → String → Option PyVal
  | [], _ => Option.none
  | (k2, v2) :: rest, k => if k2 = k then some v2 else dictLookup rest k

/-- The non-complex loop of `arrayElementToPy` (lines 245-253): for each
index below `numValues`, `getScalarValue` fills one slot of the result; the
first failure aborts.  Arguments: current index, remaining iterations. -/
def arrayScalarLoop (env : PyEnv) (cache : DtCache) (element : Element) :
    Nat → Nat → Except PyErr (List PyVal)
  | _, 0 => .ok []
  | i, r + 1 =>
    match getScalarValue env cache element i with
    | .error err => .error err
    | .ok pyValue =>
      match arrayScalarLoop env cache element (i + 1) r with
      | .error err => .error err
      | .ok vs => .ok (pyValue :: vs)

/-! ### Size lemmas for the recursive conversion -/

theorem Element.sizeOf_subElements_lt (e : Element) : sizeOf e.subElements < sizeOf e := by
  cases e with
  | mk d c a n t nm sv ve se =>
      first
      | (simp [Element.subElements]; omega)
      | simp [Element.subElements]

theorem Element.sizeOf_valueElements_lt (e : Element) : sizeOf e.valueElements < sizeOf e := by
  cases e with
  | mk d c a n t nm sv ve se =>
      first
      | (simp [Element.valueElements]; omega)
      | simp [Element.valueElements]

theorem sizeOf_head_lt (s : Element) (rest : List (Option Element)) :
    sizeOf s < sizeOf (some s :: rest) := by
  first
  | (simp; omega)
  | simp

/-! ## The recursive conversion pipeline (value level) -/

mutual

/-- `blpapi_Element_toPy(element)` (lines 269-282): route a complex element
to `complexElementToPy`, else an array element to `arrayElementToPy`, else a
null element to `None`, else convert as a scalar at index 0. -/
def blpapi_Element_toPy (env : PyEnv) (cache : DtCache) (element : Element) :
    Except PyErr PyVal :=
  if element.isComplexType then
    complexElementToPy env cache element
  else if element.isArray then
    arrayElementToPy env cache element
  else if element.isNull then
    .ok PyVal.none
  else
    getScalarValue env cache element 0
termination_by (sizeOf element, 2)
decreasing_by
  all_goals simp_wf
  all_goals apply Prod.Lex.right
  all_goals (first | omega | simp)

/-- `complexElementToPy(element)` (lines 172-210) at the value level: iterate
the sub-elements in native order into a fresh dict. -/
def complexElementToPy (env : PyEnv) (cache : DtCache) (element : Element) :
    Except PyErr PyVal :=
  match complexLoop env cache element.subElements [] with
  | .error err => .error err
  | .ok pyDict => .ok (.dict pyDict)
termination_by (sizeOf element, 1)
decreasing_by
  simp_wf
  exact Prod.Lex.left _ _ (Element.sizeOf_subElements_lt element)

/-- The loop of `complexElementToPy` (lines 180-198), traversing the
`getElementAt` results in index order: a failing `getElementAt` aborts, a
failing recursive conversion propagates its error, a converted value is
stored under the sub-element's own name. -/
def complexLoop (env : PyEnv) (cache : DtCache) (l : List (Option Element))
    (pyDict : List (String × PyVal)) : Except PyErr (List (String × PyVal)) :=
  match l with
  | [] => .ok pyDict
  | Option.none :: _ => .error ⟨"Internal error in `Element.toPy`"⟩
  | some subElement :: rest =>
    match blpapi_Element_toPy env cache subElement with
    | .error err => .error err
    | .ok subElementPy =>
      complexLoop env cache rest (dictSet pyDict subElement.name subElementPy)
termination_by (sizeOf l, 0)
decreasing_by
  all_goals simp_wf
  all_goals apply Prod.Lex.left
  all_goals (first | (simp; omega) | simp | omega)

/-- `arrayElementToPy(element)` (lines 212-267) at the value level: read the
schema type definition's complexity once, then either recursively convert
each `getValueAsElement` result, or convert each index with
`getScalarValue`. -/
def arrayElementToPy (env : PyEnv) (cache : DtCache) (element : Element) :
    Except PyErr PyVal :=
  if element.typeIsComplex then
    match arrayComplexLoop env cache element.valueElements with
    | .error err => .error err
    | .ok vs => .ok (.list vs)
  else
    match arrayScalarLoop env cache element 0 element.numValues with
    | .error err => .error err
    | .ok vs => .ok (.list vs)
termination_by (sizeOf element, 1)
decreasing_by
  simp_wf
  exact Prod.Lex.left _ _ (Element.sizeOf_valueElements_lt element)

/-- The complex-values loop of `arrayElementToPy` (lines 228-244), traversing
the `getValueAsElement` results in index order. -/
def arrayComplexLoop (env : PyEnv) (cache : DtCache) (l : List (Option Element)) :
    Except PyErr (List PyVal) :=
  match l with
  | [] => .ok []
  | Option.none :: _ => .error ⟨"Internal error in blpapi_Element_getValueAsElement"⟩
  | some result :: rest =>
    match blpapi_Element_toPy env cache result with
    | .error err => .error err
    | .ok pyValue =>
      match arrayComplexLoop env cache rest with
      | .error err => .error err
      | .ok vs => .ok (pyValue :: vs)
termination_by (sizeOf l, 0)
decreasing_by
  all_goals simp_wf
  all_goals apply Prod.Lex.left
  all_goals (first | (simp; omega) | simp | omega)

end

/-! ## Reference-counting model of the conversion pipeline

The value-level model above captures which values and errors are produced.
The claims about the error cleanup paths are about CPython reference counts,
so the same C functions are translated a second time against an explicit
object heap.  An object id is an index into the heap; `rc` is the object's
reference count, `alive` is false once CPython has deallocated it.  A
reference count that goes below zero records a decref of an already freed
object (a double release). -/

/-- The payload of one CPython object: either an opaque non-container value
(including `None`), or a list holding (possibly empty) slots of object ids,
or a dict holding name-keyed object ids. -/
inductive PyPayload where
  | scalarP (v : PyVal)
  | listP (slots : List (Option Nat))
  | dictP (entries : List (String × Nat))

/-- One heap cell: reference count, liveness, payload. -/
structure HeapObj where
  rc : Int
  alive : Bool
  payload : PyPayload

structure Heap where
  objs : List HeapObj

/-- Allocation with an initial reference count of one (every CPython
constructor used by `ffi_utils.c` returns a new strong reference). -/
def Heap.alloc (h : Heap) (p : PyPayload) : Heap × Nat :=
  ({ objs := h.objs ++ [⟨1, true, p⟩] }, h.objs.length)

/-- The strong references a container holds, released on deallocation. -/
def PyPayload.childIds : PyPayload → List Nat
  | .scalarP _ => []
  | .listP slots => slots.filterMap (fun s => s)
  | .dictP entries => entries.map (fun p => p.2)

def Heap.setObj (h : Heap) (i : Nat) (o : HeapObj) : Heap :=
  ⟨h.objs.set i o⟩

/-- `Py_DECREF`: decrement; on reaching zero, deallocate and release the
children (CPython container deallocation).  `fuel` bounds the cascade depth;
every call below passes the heap size, which covers the tree-shaped heaps the
bridge builds.  A decrement of an already freed object drives `rc` below
zero. -/
def Heap.decref : Nat → Heap → Nat → Heap
  | 0, h, _ => h
  | fuel + 1, h, i =>
    match h.objs[i]? with
    | Option.none => h
    | some o =>
      if o.rc - 1 = 0 ∧ o.alive then
        let h2 := h.setObj i ⟨0, false, o.payload⟩
        o.payload.childIds.foldl (fun hh c => Heap.decref fuel hh c) h2
      else
        h.setObj i ⟨o.rc - 1, o.alive, o.payload⟩

/-- `Py_INCREF` / `Py_XINCREF` on a present id. -/
def Heap.incref (h : Heap) (i : Nat) : Heap :=
  match h.objs[i]? with
  | Option.none => h
  | some o => h.setObj i ⟨o.rc + 1, o.alive, o.payload⟩

/-- `Py_XDECREF`: tolerate a `NULL` pointer. -/
def Heap.xdecref (fuel : Nat) (h : Heap) (i : Option Nat) : Heap :=
  match i with
  | Option.none => h
  | some j => Heap.decref fuel h j

/-- `PyList_SetItem(list, i, v)`: stores `v` without incrementing it (the
reference is stolen) and releases the reference previously held by the
slot. -/
def Heap.listSetItem (fuel : Nat) (h : Heap) (listId : Nat) (i : Nat) (v : Nat) : Heap :=
  match h.objs[listId]? with
  | Option.none => h
  | some o =>
    match o.payload with
    | .listP slots =>
      let old := (slots[i]?).bind (fun s => s)
      let h2 := h.setObj listId ⟨o.rc, o.alive, .listP (slots.set i (some v))⟩
      Heap.xdecref fuel h2 old
    | _ => h

/-- `PyDict_SetItemString(dict, k, v)`: increments `v` (the reference is not
stolen), stores it under `k`, and releases the value previously stored under
`k` if the key was already present. -/
def Heap.dictSetItemString (fuel : Nat) (h : Heap) (dictId : Nat) (k : String) (v : Nat) : Heap :=
  match h.objs[dictId]? with
  | Option.none => h
  | some o =>
    match o.payload with
    | .dictP entries =>
      let old := (entries.find? (fun p => p.1 = k)).map (fun p => p.2)
      let entries2 :=
        if entries.any (fun p => p.1 = k) then
          entries.map (fun p => if p.1 = k then (k, v) else p)
        else
          entries ++ [(k, v)]
      let h2 := Heap.incref h v
      let h3 := h2.setObj dictId ⟨o.rc, o.alive, .dictP entries2⟩
      Heap.xdecref fuel h3 old
    | _ => h

/-- The shared `ERROR` epilogue of `complexElementToPy` (lines 200-209) and
`arrayElementToPy` (lines 257-266): `Py_XDECREF` the partially built
container, then `Py_XDECREF` the value variable, then return `NULL`. -/
def convErrorRC (h : Heap) (container : Option Nat) (valueVar : Option Nat) :
    Heap × Option Nat :=
  let h2 := Heap.xdecref h.objs.length h container
  let h3 := Heap.xdecref h2.objs.length h2 valueVar
  (h3, Option.none)

/-- `getScalarValue` against the heap: identical dispatch to the value-level
`getScalarValue`, but each produced value is an allocated object (one fresh
reference) and a failure returns `NULL`.  `Py_RETURN_NONE` is modelled as a
fresh allocation standing for the new strong reference to `None`. -/
def getScalarValueRC (env : PyEnv) (cache : DtCache) (h : Heap) (element : Element)
    (index : Nat) : Heap × Option Nat :=
  match getScalarValue env cache element index with
  | .error _ => (h, Option.none)
  | .ok v => let (h2, i) := h.alloc (.scalarP v); (h2, some i)

/-- The loop of `complexElementToPy` against the heap (lines 180-198).  The
local `subElementPy` is threaded across iterations exactly as in the C code:
after a successful iteration it still points at the object that was stored in
the dict (and whose loop-held reference was already dropped by the
`Py_DECREF` on line 197), which is what the `ERROR` path receives when
`blpapi_Element_getElementAt` fails on a later iteration. -/
def complexLoopRC (toPySub : Heap → Element → Heap × Option Nat) (element : Element)
    (pyDict : Nat) : Heap → Option Nat → Nat → Nat → Heap × Option Nat
  | h, _, _, 0 => (h, some pyDict)
  | h, subElementPy, i, r + 1 =>
    match blpapi_Element_getElementAt element i with
    | Option.none => convErrorRC h (some pyDict) subElementPy
    | some subElement =>
      let name := subElement.name
      match toPySub h subElement with
      | (h2, Option.none) => convErrorRC h2 (some pyDict) Option.none
      | (h2, some sub2) =>
        let h3 := Heap.dictSetItemString h2.objs.length h2 pyDict name sub2
        let h4 := Heap.decref h3.objs.length h3 sub2
        complexLoopRC toPySub element pyDict h4 (some sub2) (i + 1) r

/-- `complexElementToPy` against the heap (lines 172-210). -/
def complexElementToPyRC (toPySub : Heap → Element → Heap × Option Nat) (h : Heap)
    (element : Element) : Heap × Option Nat :=
  let (h2, pyDict) := h.alloc (.dictP [])
  complexLoopRC toPySub element pyDict h2 Option.none 0 element.numElements

/-- The complex-values loop of `arrayElementToPy` against the heap (lines
228-244).  The local `pyValue` is threaded across iterations exactly as in
the C code: after a successful iteration it still points at the object whose
only reference was stolen by `PyList_SetItem`, which is what the `ERROR` path
receives when `blpapi_Element_getValueAsElement` fails on a later
iteration. -/
def arrayComplexLoopRC (toPySub : Heap → Element → Heap × Option Nat) (element : Element)
    (pyList : Nat) : Heap → Option Nat → Nat → Nat → Heap × Option Nat
  | h, _, _, 0 => (h, some pyList)
  | h, pyValue, i, r + 1 =>
    match blpapi_Element_getValueAsElement element i with
    | Option.none => convErrorRC h (some pyList) pyValue
    | some result =>
      match toPySub h result with
      | (h2, Option.none) => convErrorRC h2 (some pyList) Option.none
      | (h2, some v) =>
        let h3 := Heap.listSetItem h2.objs.length h2 pyList i v
        arrayComplexLoopRC toPySub element pyList h3 (some v) (i + 1) r

/-- The non-complex loop of `arrayElementToPy` against the heap (lines
245-253).  `pyValue` is overwritten by `getScalarValue` before it can be
tested, so the `ERROR` path only ever receives `NULL` here. -/
def arrayScalarLoopRC (env : PyEnv) (cache : DtCache) (element : Element)
    (pyList : Nat) : Heap → Nat → Nat → Heap × Option Nat
  | h, _, 0 => (h, some pyList)
  | h, i, r + 1 =>
    match getScalarValueRC env cache h element i with
    | (h2, Option.none) => convErrorRC h2 (some pyList) Option.none
    | (h2, some v) =>
      let h3 := Heap.listSetItem h2.objs.length h2 pyList i v
      arrayScalarLoopRC env cache element pyList h3 (i + 1) r

/-- `arrayElementToPy` against the heap (lines 212-267). -/
def arrayElementToPyRC (toPySub : Heap → Element → Heap × Option Nat) (env : PyEnv)
    (cache : DtCache) (h : Heap) (element : Element) : Heap × Option Nat :=
  let numValues := element.numValues
  let (h2, pyList) := h.alloc (.listP (List.replicate numValues Option.none))
  if element.typeIsComplex then
    arrayComplexLoopRC toPySub element pyList h2 Option.none 0 numValues
  else
    arrayScalarLoopRC env cache element pyList h2 0 numValues

/-- `blpapi_Element_toPy` against the heap (lines 269-282).  The first
argument bounds the recursion depth (the C recursion is bounded by the
element tree height); it is decremented at each recursive conversion and
every theorem below applies it with fuel exceeding the tree height. -/
def blpapi_Element_toPyRC : Nat → PyEnv → DtCache → Heap → Element → Heap × Option Nat
  | 0, _, _, h, _ => (h, Option.none)
  | fuel + 1, env, cache, h, element =>
    if element.isComplexType then
      complexElementToPyRC (blpapi_Element_toPyRC fuel env cache) h element
    else if element.isArray then
      arrayElementToPyRC (blpapi_Element_toPyRC fuel env cache) env cache h element
    else if element.isNull then
      let (h2, i) := h.alloc (.scalarP PyVal.none)
      (h2, some i)
    else
      getScalarValueRC env cache h element 0

/-! ## The lifetime bridge (lines 284-337) -/

/-- `BLPAPI_MANAGEDPTR_COPY` / `BLPAPI_MANAGEDPTR_DESTROY` from the external
`blpapi_correlationid.h`; only their distinctness matters. -/
def BLPAPI_MANAGEDPTR_COPY : Int := 1

def BLPAPI_MANAGEDPTR_DESTROY : Int := 2

/-- A manager-function pointer stored in a `blpapi_ManagedPtr_t`:
`managerFuncAddr` is the address of this bridge's `managerFunc`; `foreign n`
is any other manager function (e.g. a C++ callback installed for recaps). -/
inductive ManagerFuncPtr where
  | managerFuncAddr
  | foreign (n : Nat)
deriving DecidableEq, Repr

/-- `blpapi_ManagedPtr_t`: a raw Python object pointer (`none` = `NULL`) plus
a manager-function pointer. -/
structure ManagedPtr where
  pointer : Option Nat
  manager : ManagerFuncPtr
deriving DecidableEq, Repr

/-- Reference counts of the Python objects a managed pointer can designate.
`managerFunc` treats these objects as opaque (no container cascade), so a
plain counter per object id suffices. -/
def RefCounts : Type := Nat → Int

/-- `Py_XINCREF` on a possibly `NULL` pointer. -/
def pyXincref (counts : RefCounts) : Option Nat → RefCounts
  | Option.none => counts
  | some p => fun q => if q = p then counts q + 1 else counts q

/-- `Py_XDECREF` on a possibly `NULL` pointer. -/
def pyXdecref (counts : RefCounts) : Option Nat → RefCounts
  | Option.none => counts
  | some p => fun q => if q = p then counts q - 1 else counts q

/-- Result of one `managerFunc` invocation: the two handles as left behind,
the reference counts, and the C return value. -/
structure ManagerResult where
  mptr : ManagedPtr
  sptr : ManagedPtr
  counts : RefCounts
  ret : Int

/-- `managerFunc(mptr, sptr, operation)` (lines 302-320): on `COPY` the
destination inherits the source's pointer and manager and the referenced
object is incremented (`Py_XINCREF`); on `DESTROY` the destination's object
is decremented (`Py_XDECREF`); any other operation does nothing.  The return
value is always 0. -/
def managerFunc (mptr sptr : ManagedPtr) (operation : Int) (counts : RefCounts) :
    ManagerResult :=
  if operation = BLPAPI_MANAGEDPTR_COPY then
    let managedPtr2 : ManagedPtr := { pointer := sptr.pointer, manager := sptr.manager }
    ⟨managedPtr2, sptr, pyXincref counts managedPtr2.pointer, 0⟩
  else if operation = BLPAPI_MANAGEDPTR_DESTROY then
    ⟨mptr, sptr, pyXdecref counts mptr.pointer, 0⟩
  else
    ⟨mptr, sptr, counts, 0⟩

/-- `setmptr(s)` (lines 322-327): install this bridge's `managerFunc` as the
handle's manager. -/
def setmptr (p : ManagedPtr) : ManagedPtr :=
  { p with manager := ManagerFuncPtr.managerFuncAddr }

/-- `is_known_obj(s)` (lines 333-337): compare the handle's manager-function
pointer against `&managerFunc`. -/
def is_known_obj (p : ManagedPtr) : Bool :=
  p.manager = ManagerFuncPtr.managerFuncAddr

/-! ## Concrete fixtures used by the claim theorems and witnesses -/

/-- An environment in which all three datetime-helper lookups succeed. -/
def pyEnvAllOk : PyEnv := ⟨some 100, some 101, some 102⟩

/-- The static variables before the first resolution attempt. -/
def emptyDtCache : DtCache := ⟨Option.none, Option.none, Option.none⟩

def emptyHeap : Heap := ⟨[]⟩

/-- A scalar `INT64` field holding 7. -/
def intFieldElement : Element :=
  .mk BLPAPI_DATATYPE_INT64 false false false false "f" [some (.intV 7)] [] []

/-- An array of complex values with two entries whose native accessor
succeeds at index 0 and fails (non-zero status) at index 1. -/
def badArrayElement : Element :=
  .mk BLPAPI_DATATYPE_SEQUENCE false true false true "arr" []
    [some intFieldElement, Option.none] []

/-- A boolean scalar element holding true. -/
def boolElement : Element :=
  .mk BLPAPI_DATATYPE_BOOL false false false false "b" [some (.boolV true)] [] []

/-- A datetime element whose high-precision value has an empty parts mask. -/
def dtNullElement : Element :=
  .mk BLPAPI_DATATYPE_DATETIME false false false false "dt"
    [some (.dtV ⟨⟨0, 10, 30, 15, 123, 5, 17, 2024, 0⟩, 500000000⟩)] [] []

/-- A datetime element with a full parts mask, 123 milliseconds and
500000000 picoseconds. -/
def dtFullElement : Element :=
  .mk BLPAPI_DATATYPE_DATETIME false false false false "dt"
    [some (.dtV ⟨⟨255, 10, 30, 15, 123, 5, 17, 2024, 0⟩, 500000000⟩)] [] []

/-- A scalar array holding the integers 1, 2, 3. -/
def intsArrayElement : Element :=
  .mk BLPAPI_DATATYPE_INT64 false true false false "ints"
    [some (.intV 1), some (.intV 2), some (.intV 3)] [] []

/-- A complex element with two sub-elements both named "X", holding "A" then
"B" in native order. -/
def dupFieldElement : Element :=
  .mk BLPAPI_DATATYPE_SEQUENCE true false false true "rec" [] []
    [some (.mk BLPAPI_DATATYPE_STRING false false false false "X" [some (.strV "A")] [] []),
     some (.mk BLPAPI_DATATYPE_STRING false false false false "X" [some (.strV "B")] [] [])]

/-- A fixed reference-count assignment used by witnesses. -/
def countsW : RefCounts := fun _ => 5

/-! ## Claims about the lifetime bridge -/

/-- **C8**: `managerFunc`'s copy operation makes the destination handle
inherit the source's raw object pointer and manager-function pointer and
increments the referenced object's count; destroy decrements it (tolerating a
`NULL` pointer as a no-op); and the sequence copy, copy, destroy, destroy
leaves every object's reference count at its initial value. -/
theorem C8_copy_destroy_refcounts (d1 d2 s : ManagedPtr) (counts : RefCounts) :
    ((managerFunc d1 s BLPAPI_MANAGEDPTR_COPY counts).mptr.pointer = s.pointer ∧
     (managerFunc d1 s BLPAPI_MANAGEDPTR_COPY counts).mptr.manager = s.manager) ∧
    (∀ p, s.pointer = some p →
      (managerFunc d1 s BLPAPI_MANAGEDPTR_COPY counts).counts p = counts p + 1) ∧
    (∀ p, d1.pointer = some p →
      (managerFunc d1 s BLPAPI_MANAGEDPTR_DESTROY counts).counts p = counts p - 1) ∧
    (d1.pointer = Option.none →
      ∀ q, (managerFunc d1 s BLPAPI_MANAGEDPTR_DESTROY counts).counts q = counts q) ∧
    (∀ q,
      (managerFunc (managerFunc d2 s BLPAPI_MANAGEDPTR_COPY
            (managerFunc d1 s BLPAPI_MANAGEDPTR_COPY counts).counts).mptr s
          BLPAPI_MANAGEDPTR_DESTROY
          (managerFunc (managerFunc d1 s BLPAPI_MANAGEDPTR_COPY counts).mptr s
            BLPAPI_MANAGEDPTR_DESTROY
            (managerFunc d2 s BLPAPI_MANAGEDPTR_COPY
              (managerFunc d1 s BLPAPI_MANAGEDPTR_COPY counts).counts).counts).counts).counts q
        = counts q) := by
  refine ⟨⟨?_, ?_⟩, ?_, ?_, ?_, ?_⟩
  · simp [managerFunc, BLPAPI_MANAGEDPTR_COPY]
  · simp [managerFunc, BLPAPI_MANAGEDPTR_COPY]
  · intro p hp
    simp [managerFunc, BLPAPI_MANAGEDPTR_COPY, pyXincref, hp]
  · intro p hp
    simp [managerFunc, BLPAPI_MANAGEDPTR_COPY, BLPAPI_MANAGEDPTR_DESTROY,
      pyXdecref, hp]
  · intro hp q
    simp [managerFunc, BLPAPI_MANAGEDPTR_COPY, BLPAPI_MANAGEDPTR_DESTROY,
      pyXdecref, hp]
  · intro q
    cases hs : s.pointer with
    | none =>
        simp [managerFunc, BLPAPI_MANAGEDPTR_COPY, BLPAPI_MANAGEDPTR_DESTROY,
          pyXincref, pyXdecref, hs]
    | some p0 =>
        by_cases hq : q = p0 <;>
          simp [managerFunc, BLPAPI_MANAGEDPTR_COPY, BLPAPI_MANAGEDPTR_DESTROY,
            pyXincref, pyXdecref, hs, hq] <;> omega

/-- Witness for C8 at concrete handles: the copy increments the referenced
object's count, and the destroy of a null-pointer handle is a no-op. -/
theorem C8_copy_destroy_refcounts_witness :
    (managerFunc ⟨Option.none, .foreign 3⟩ ⟨some 7, .managerFuncAddr⟩
        BLPAPI_MANAGEDPTR_COPY countsW).counts 7 = countsW 7 + 1 ∧
    (managerFunc ⟨Option.none, .foreign 3⟩ ⟨some 7, .managerFuncAddr⟩
        BLPAPI_MANAGEDPTR_DESTROY countsW).counts 9 = countsW 9 :=
  ⟨(C8_copy_destroy_refcounts ⟨Option.none, .foreign 3⟩ ⟨some 8, .foreign 4⟩
      ⟨some 7, .managerFuncAddr⟩ countsW).2.1 7 rfl,
   (C8_copy_destroy_refcounts ⟨Option.none, .foreign 3⟩ ⟨some 8, .foreign 4⟩
      ⟨some 7, .managerFuncAddr⟩ countsW).2.2.2.1 rfl 9⟩

/-- **C9**: `is_known_obj` is true exactly for handles whose manager was set
by `setmptr` (the bridge's own `managerFunc`), and false for a handle
carrying any other manager-function pointer. -/
theorem C9_is_known_obj_spec :
    (∀ p : ManagedPtr, is_known_obj (setmptr p) = true) ∧
    (∀ (ptr : Option Nat) (n : Nat),
      is_known_obj ⟨ptr, ManagerFuncPtr.foreign n⟩ = false) := by
  constructor
  · intro p; simp [is_known_obj, setmptr]
  · intro ptr n; simp [is_known_obj]

/-- **C10**: `managerFunc` returns 0 for every operation code, and any
operation other than copy and destroy leaves both handles and every
reference count unchanged. -/
theorem C10_manager_frame (mptr sptr : ManagedPtr) (operation : Int)
    (counts : RefCounts) :
    (managerFunc mptr sptr operation counts).ret = 0 ∧
    (managerFunc mptr sptr operation counts).sptr = sptr ∧
    (operation ≠ BLPAPI_MANAGEDPTR_COPY → operation ≠ BLPAPI_MANAGEDPTR_DESTROY →
      (managerFunc mptr sptr operation counts).mptr = mptr ∧
      ∀ q, (managerFunc mptr sptr operation counts).counts q = counts q) := by
  simp only [managerFunc, BLPAPI_MANAGEDPTR_COPY, BLPAPI_MANAGEDPTR_DESTROY]
  by_cases h1 : operation = 1
  · simp [h1]
  · by_cases h2 : operation = 2 <;> simp [h1, h2]

/-- Witness for C10 at the unrecognized operation code 3. -/
theorem C10_manager_frame_witness :
    (managerFunc ⟨some 4, .foreign 0⟩ ⟨some 7, .managerFuncAddr⟩ 3 countsW).mptr
        = ⟨some 4, .foreign 0⟩ ∧
    (managerFunc ⟨some 4, .foreign 0⟩ ⟨some 7, .managerFuncAddr⟩ 3 countsW).counts 0
        = countsW 0 :=
  ⟨((C10_manager_frame ⟨some 4, .foreign 0⟩ ⟨some 7, .managerFuncAddr⟩ 3 countsW).2.2
      (by decide) (by decide)).1,
   ((C10_manager_frame ⟨some 4, .foreign 0⟩ ⟨some 7, .managerFuncAddr⟩ 3 countsW).2.2
      (by decide) (by decide)).2 0⟩

/-! ## Claims about the conversion pipeline -/

/-- **C1** (code-bug demonstration): converting `badArrayElement` — an array
of complex values whose native accessor succeeds at index 0 and fails at
index 1 — does fail with no sequence returned, but the value converted at
index 0 (heap id 1) ends with reference count `-1`: it is released once when
the partially built list (heap id 0) is torn down by `Py_XDECREF(pyList)`,
and a second time through the stale `pyValue` local by `Py_XDECREF(pyValue)`,
contradicting the claim that each already-converted value is released exactly
once. -/
theorem C1_error_path_double_release :
    blpapi_Element_toPyRC 2 pyEnvAllOk emptyDtCache emptyHeap badArrayElement =
      (⟨[⟨0, false, .listP [some 1, Option.none]⟩,
         ⟨-1, false, .scalarP (.int 7)⟩]⟩, Option.none) := rfl

/-- **C2**: the dispatcher routes complex elements to the record converter,
then array elements to the array converter, then null elements to `None`
(with the result independent of the datatype and of every stored value, i.e.
no accessor is consulted), and everything else to the scalar converter at
index 0; a null record still converts to an empty mapping and a null array to
an empty sequence. -/
theorem C2_dispatcher_routing (env : PyEnv) (cache : DtCache) :
    (∀ (dt : Int) (a n tc : Bool) (nm : String) (sv : List (Option Scalar))
        (ve se : List (Option Element)),
      blpapi_Element_toPy env cache (.mk dt true a n tc nm sv ve se) =
        complexElementToPy env cache (.mk dt true a n tc nm sv ve se)) ∧
    (∀ (dt : Int) (n tc : Bool) (nm : String) (sv : List (Option Scalar))
        (ve se : List (Option Element)),
      blpapi_Element_toPy env cache (.mk dt false true n tc nm sv ve se) =
        arrayElementToPy env cache (.mk dt false true n tc nm sv ve se)) ∧
    (∀ (dt : Int) (tc : Bool) (nm : String) (sv : List (Option Scalar))
        (ve se : List (Option Element)),
      blpapi_Element_toPy env cache (.mk dt false false true tc nm sv ve se) =
        .ok PyVal.none) ∧
    (∀ (dt : Int) (tc : Bool) (nm : String) (sv : List (Option Scalar))
        (ve se : List (Option Element)),
      blpapi_Element_toPy env cache (.mk dt false false false tc nm sv ve se) =
        getScalarValue env cache (.mk dt false false false tc nm sv ve se) 0) ∧
    (∀ (dt : Int) (a tc : Bool) (nm : String) (sv : List (Option Scalar))
        (ve : List (Option Element)),
      blpapi_Element_toPy env cache (.mk dt true a true tc nm sv ve []) =
        .ok (.dict [])) ∧
    (∀ (dt : Int) (tc : Bool) (nm : String) (se : List (Option Element)),
      blpapi_Element_toPy env cache (.mk dt false true true tc nm [] [] se) =
        .ok (.list [])) := by
  refine ⟨?_, ?_, ?_, ?_, ?_, ?_⟩
  · intro dt a n tc nm sv ve se
    simp [blpapi_Element_toPy, Element.isComplexType]
  · intro dt n tc nm sv ve se
    simp [blpapi_Element_toPy, Element.isComplexType, Element.isArray]
  · intro dt tc nm sv ve se
    simp [blpapi_Element_toPy, Element.isComplexType, Element.isArray, Element.isNull]
  · intro dt tc nm sv ve se
    simp [blpapi_Element_toPy, Element.isComplexType, Element.isArray, Element.isNull]
  · intro dt a tc nm sv ve
    simp [blpapi_Element_toPy, complexElementToPy, complexLoop,
      Element.isComplexType, Element.subElements]
  · intro dt tc nm se
    cases tc <;>
      simp [blpapi_Element_toPy, arrayElementToPy, arrayScalarLoop, arrayComplexLoop,
        Element.isComplexType, Element.isArray, Element.typeIsComplex,
        Element.numValues, Element.valueElements, Element.scalarValues]

/-- **C3**: the scalar converter dispatches exactly on the declared datatype
tag — booleans to a boolean, byte/int32/int64 to an integer via the 64-bit
accessor, float32/float64 to a float via the 64-bit accessor,
char/string/enumeration to a copied text value, byte arrays to a copied
blob, date/time/datetime to the date/time adapter — and fails with the
unsupported-datatype error for sequence, choice, or any unrecognized tag;
each accessor failure produces the corresponding accessor error. -/
theorem C3_scalar_dispatch (env : PyEnv) (cache : DtCache) (element : Element)
    (index : Nat) :
    (element.datatype = BLPAPI_DATATYPE_BOOL →
      getScalarValue env cache element index =
        (match blpapi_Element_getValueAsBool element index with
         | Option.none => .error ⟨"Internal error getting bool"⟩
         | some boolBuffer => .ok (.bool boolBuffer))) ∧
    (element.datatype = BLPAPI_DATATYPE_BYTE ∨ element.datatype = BLPAPI_DATATYPE_INT32 ∨
        element.datatype = BLPAPI_DATATYPE_INT64 →
      getScalarValue env cache element index =
        (match blpapi_Element_getValueAsInt64 element index with
         | Option.none => .error ⟨"Internal error getting int"⟩
         | some int64Buffer => .ok (.int int64Buffer))) ∧
    (element.datatype = BLPAPI_DATATYPE_FLOAT32 ∨ element.datatype = BLPAPI_DATATYPE_FLOAT64 →
      getScalarValue env cache element index =
        (match blpapi_Element_getValueAsFloat64 element index with
         | Option.none => .error ⟨"Internal error getting float"⟩
         | some floatBuffer => .ok (.float floatBuffer))) ∧
    (element.datatype = BLPAPI_DATATYPE_CHAR ∨ element.datatype = BLPAPI_DATATYPE_STRING ∨
        element.datatype = BLPAPI_DATATYPE_ENUMERATION →
      getScalarValue env cache element index =
        (match blpapi_Element_getValueAsString element index with
         | Option.none => .error ⟨"Internal error getting string"⟩
         | some strValue => .ok (.str strValue))) ∧
    (element.datatype = BLPAPI_DATATYPE_BYTEARRAY →
      getScalarValue env cache element index =
        (match blpapi_Element_getValueAsBytes element index with
         | Option.none => .error ⟨"Internal error getting bytes"⟩
         | some bytesValue => .ok (.bytes bytesValue))) ∧
    (element.datatype = BLPAPI_DATATYPE_DATE ∨ element.datatype = BLPAPI_DATATYPE_TIME ∨
        element.datatype = BLPAPI_DATATYPE_DATETIME →
      getScalarValue env cache element index = datetimeScalarToPy env cache element index) ∧
    (element.datatype = BLPAPI_DATATYPE_SEQUENCE ∨ element.datatype = BLPAPI_DATATYPE_CHOICE →
      getScalarValue env cache element index = .error ⟨"Internal datatype error"⟩) ∧
    (element.datatype ∉ ([BLPAPI_DATATYPE_BOOL, BLPAPI_DATATYPE_CHAR, BLPAPI_DATATYPE_BYTE,
        BLPAPI_DATATYPE_INT32, BLPAPI_DATATYPE_INT64, BLPAPI_DATATYPE_FLOAT32,
        BLPAPI_DATATYPE_FLOAT64, BLPAPI_DATATYPE_STRING, BLPAPI_DATATYPE_BYTEARRAY,
        BLPAPI_DATATYPE_DATE, BLPAPI_DATATYPE_TIME, BLPAPI_DATATYPE_DATETIME,
        BLPAPI_DATATYPE_ENUMERATION] : List Int) →
      getScalarValue env cache element index = .error ⟨"Internal datatype error"⟩) := by
  refine ⟨?_, ?_, ?_, ?_, ?_, ?_, ?_, ?_⟩
  · intro h
    simp [getScalarValue, h]
  · intro h
    rcases h with h | h | h <;>
      simp [getScalarValue, h, BLPAPI_DATATYPE_BOOL, BLPAPI_DATATYPE_BYTE,
        BLPAPI_DATATYPE_INT32, BLPAPI_DATATYPE_INT64]
  · intro h
    rcases h with h | h <;>
      simp [getScalarValue, h, BLPAPI_DATATYPE_BOOL, BLPAPI_DATATYPE_BYTE,
        BLPAPI_DATATYPE_INT32, BLPAPI_DATATYPE_INT64, BLPAPI_DATATYPE_FLOAT32,
        BLPAPI_DATATYPE_FLOAT64]
  · intro h
    rcases h with h | h | h <;>
      simp [getScalarValue, h, BLPAPI_DATATYPE_BOOL, BLPAPI_DATATYPE_BYTE,
        BLPAPI_DATATYPE_INT32, BLPAPI_DATATYPE_INT64, BLPAPI_DATATYPE_FLOAT32,
        BLPAPI_DATATYPE_FLOAT64, BLPAPI_DATATYPE_CHAR, BLPAPI_DATATYPE_STRING,
        BLPAPI_DATATYPE_ENUMERATION]
  · intro h
    simp [getScalarValue, h, BLPAPI_DATATYPE_BOOL, BLPAPI_DATATYPE_BYTE,
      BLPAPI_DATATYPE_INT32, BLPAPI_DATATYPE_INT64, BLPAPI_DATATYPE_FLOAT32,
      BLPAPI_DATATYPE_FLOAT64, BLPAPI_DATATYPE_CHAR, BLPAPI_DATATYPE_STRING,
      BLPAPI_DATATYPE_ENUMERATION, BLPAPI_DATATYPE_BYTEARRAY]
  · intro h
    rcases h with h | h | h <;>
      simp [getScalarValue, h, BLPAPI_DATATYPE_BOOL, BLPAPI_DATATYPE_BYTE,
        BLPAPI_DATATYPE_INT32, BLPAPI_DATATYPE_INT64, BLPAPI_DATATYPE_FLOAT32,
        BLPAPI_DATATYPE_FLOAT64, BLPAPI_DATATYPE_CHAR, BLPAPI_DATATYPE_STRING,
        BLPAPI_DATATYPE_ENUMERATION, BLPAPI_DATATYPE_BYTEARRAY, BLPAPI_DATATYPE_DATE,
        BLPAPI_DATATYPE_TIME, BLPAPI_DATATYPE_DATETIME]
  · intro h
    rcases h with h | h <;>
      simp [getScalarValue, h, BLPAPI_DATATYPE_BOOL, BLPAPI_DATATYPE_BYTE,
        BLPAPI_DATATYPE_INT32, BLPAPI_DATATYPE_INT64, BLPAPI_DATATYPE_FLOAT32,
        BLPAPI_DATATYPE_FLOAT64, BLPAPI_DATATYPE_CHAR, BLPAPI_DATATYPE_STRING,
        BLPAPI_DATATYPE_ENUMERATION, BLPAPI_DATATYPE_BYTEARRAY, BLPAPI_DATATYPE_DATE,
        BLPAPI_DATATYPE_TIME, BLPAPI_DATATYPE_DATETIME, BLPAPI_DATATYPE_SEQUENCE,
        BLPAPI_DATATYPE_CHOICE]
  · intro h
    simp only [List.mem_cons, List.not_mem_nil, or_false, not_or] at h
    obtain ⟨h1, h2, h3, h4, h5, h6, h7, h8, h9, h10, h11, h12, h13⟩ := h
    simp [getScalarValue, h1, h2, h3, h4, h5, h6, h7, h8, h9, h10, h11, h12, h13]

/-- Witness for C3: a boolean element takes the boolean branch. -/
theorem C3_scalar_dispatch_witness :
    getScalarValue pyEnvAllOk emptyDtCache boolElement 0 =
      (match blpapi_Element_getValueAsBool boolElement 0 with
       | Option.none => .error ⟨"Internal error getting bool"⟩
       | some boolBuffer => .ok (.bool boolBuffer)) :=
  (C3_scalar_dispatch pyEnvAllOk emptyDtCache boolElement 0).1 rfl

/-- **C4**: once the high-precision timestamp has been read, an empty parts
mask yields `None` whatever the other fields hold, and otherwise the helper
is invoked with the 9 integer components, the sub-second component being
`milliSeconds * 1000 + picoseconds / 1000000` microseconds. -/
theorem C4_datetime_conversion (env : PyEnv) (cache : DtCache) (element : Element)
    (index : Nat) (f : Nat) (buf : HighPrecisionDatetime)
    (hres : (resolveConvertToPyTime env cache).2 = .ok f)
    (hread : blpapi_Element_getValueAsHighPrecisionDatetime element index = some buf) :
    (buf.datetime.parts = 0 →
      datetimeScalarToPy env cache element index = .ok PyVal.none) ∧
    (buf.datetime.parts ≠ 0 →
      datetimeScalarToPy env cache element index =
        .ok (.time buf.datetime.parts buf.datetime.offset buf.datetime.year
          buf.datetime.month buf.datetime.day buf.datetime.hours buf.datetime.minutes
          buf.datetime.seconds
          (buf.datetime.milliSeconds * 1000 + buf.picoseconds / 1000000))) := by
  constructor <;> intro hp <;> simp [datetimeScalarToPy, hres, hread, hp]

/-- Witness for C4: an empty parts mask gives `None`; a full timestamp with
123 milliseconds and 500000000 picoseconds gives 123500 microseconds. -/
theorem C4_datetime_conversion_witness :
    datetimeScalarToPy pyEnvAllOk emptyDtCache dtNullElement 0 = .ok PyVal.none ∧
    datetimeScalarToPy pyEnvAllOk emptyDtCache dtFullElement 0 =
      .ok (.time 255 0 2024 5 17 10 30 15 123500) :=
  ⟨(C4_datetime_conversion pyEnvAllOk emptyDtCache dtNullElement 0 102
      ⟨⟨0, 10, 30, 15, 123, 5, 17, 2024, 0⟩, 500000000⟩ rfl rfl).1 rfl,
   (C4_datetime_conversion pyEnvAllOk emptyDtCache dtFullElement 0 102
      ⟨⟨255, 10, 30, 15, 123, 5, 17, 2024, 0⟩, 500000000⟩ rfl rfl).2 (by decide)⟩

/-- **C5**: the datetime helper is resolved lazily at most once (once cached,
no lookup is consulted and the statics are unchanged); a failure at any of
the three lookup steps yields an error and leaves `convertToPyTime` unset, so
any later call re-attempts the full resolution and succeeds as soon as the
lookups succeed; and a resolution failure makes the datetime conversion fail
with that error. -/
theorem C5_lazy_resolution :
    (∀ (env : PyEnv) (cache : DtCache) (f : Nat), cache.convertToPyTime = some f →
      resolveConvertToPyTime env cache = (cache, .ok f)) ∧
    (∀ (env : PyEnv) (cache : DtCache), cache.convertToPyTime = Option.none →
      ((∃ err, (resolveConvertToPyTime env cache).2 = .error err) ↔
        (env.importBlpapiDatetime = Option.none ∨ env.getDatetimeUtilAttr = Option.none ∨
         env.getToPyTimeFromIntsAttr = Option.none))) ∧
    (∀ (env : PyEnv) (cache cache2 : DtCache) (err : PyErr),
      resolveConvertToPyTime env cache = (cache2, .error err) →
      cache2.convertToPyTime = Option.none) ∧
    (∀ (env2 : PyEnv) (cache : DtCache) (m u f : Nat),
      cache.convertToPyTime = Option.none →
      env2.importBlpapiDatetime = some m → env2.getDatetimeUtilAttr = some u →
      env2.getToPyTimeFromIntsAttr = some f →
      resolveConvertToPyTime env2 cache = (⟨some m, some u, some f⟩, .ok f)) ∧
    (∀ (env : PyEnv) (cache : DtCache) (element : Element) (index : Nat) (err : PyErr),
      (element.datatype = BLPAPI_DATATYPE_DATE ∨ element.datatype = BLPAPI_DATATYPE_TIME ∨
        element.datatype = BLPAPI_DATATYPE_DATETIME) →
      (resolveConvertToPyTime env cache).2 = .error err →
      getScalarValue env cache element index = .error err) := by
  refine ⟨?_, ?_, ?_, ?_, ?_⟩
  · intro env cache f h
    simp [resolveConvertToPyTime, h]
  · intro env cache h
    rcases env with ⟨e1, e2, e3⟩
    cases e1 <;> cases e2 <;> cases e3 <;> simp [resolveConvertToPyTime, h]
  · intro env cache cache2 err h
    rcases cache with ⟨c1, c2, c3⟩
    cases c3 with
    | some f => simp [resolveConvertToPyTime] at h
    | none =>
        rcases env with ⟨e1, e2, e3⟩
        cases e1 <;> cases e2 <;> cases e3 <;>
          simp_all [resolveConvertToPyTime] <;> simp [← h.1]
  · intro env2 cache m u f hc h1 h2 h3
    rcases cache with ⟨c1, c2, c3⟩
    simp only [DtCache.mk.injEq] at hc ⊢
    subst hc
    simp [resolveConvertToPyTime, h1, h2, h3]
  · intro env cache element index err hdt herr
    rcases hdt with h | h | h <;>
      simp [getScalarValue, datetimeScalarToPy, h, herr, BLPAPI_DATATYPE_BOOL,
        BLPAPI_DATATYPE_BYTE, BLPAPI_DATATYPE_INT32, BLPAPI_DATATYPE_INT64,
        BLPAPI_DATATYPE_FLOAT32, BLPAPI_DATATYPE_FLOAT64, BLPAPI_DATATYPE_CHAR,
        BLPAPI_DATATYPE_STRING, BLPAPI_DATATYPE_ENUMERATION, BLPAPI_DATATYPE_BYTEARRAY,
        BLPAPI_DATATYPE_DATE, BLPAPI_DATATYPE_TIME, BLPAPI_DATATYPE_DATETIME]

/-- Witness for C5: a cached helper is returned without consulting the
lookups, and a full resolution from the state left by a failed first attempt
succeeds once the lookups succeed. -/
theorem C5_lazy_resolution_witness :
    resolveConvertToPyTime pyEnvAllOk ⟨Option.none, Option.none, some 55⟩ =
      (⟨Option.none, Option.none, some 55⟩, .ok 55) ∧
    resolveConvertToPyTime pyEnvAllOk ⟨some 9, Option.none, Option.none⟩ =
      (⟨some 100, some 101, some 102⟩, .ok 102) :=
  ⟨C5_lazy_resolution.1 pyEnvAllOk ⟨Option.none, Option.none, some 55⟩ 55 rfl,
   C5_lazy_resolution.2.2.2.1 pyEnvAllOk ⟨some 9, Option.none, Option.none⟩
     100 101 102 rfl rfl rfl rfl⟩

/-! ## Helper lemmas for the array and record converters -/

theorem blpapi_Element_getValueAsElement_eq_bind (e : Element) (i : Nat) :
    blpapi_Element_getValueAsElement e i = (e.valueElements[i]?).bind (fun o => o) := by
  cases h : e.valueElements[i]? with
  | none => simp [blpapi_Element_getValueAsElement, h]
  | some o => cases o <;> simp [blpapi_Element_getValueAsElement, h]

theorem arrayComplexLoop_ok (env : PyEnv) (cache : DtCache) :
    ∀ (l : List (Option Element)) (vs : List PyVal),
      arrayComplexLoop env cache l = .ok vs →
      vs.length = l.length ∧
      ∀ i : Nat, vs[i]? = (l[i]?.bind (fun o => o)).bind
          (fun sub => (blpapi_Element_toPy env cache sub).toOption) := by
  intro l
  induction l with
  | nil =>
      intro vs h
      simp only [arrayComplexLoop] at h
      cases h
      simp
  | cons hd rest ih =>
      intro vs h
      cases hd with
      | none => simp [arrayComplexLoop] at h
      | some s =>
          simp only [arrayComplexLoop] at h
          cases ht : blpapi_Element_toPy env cache s with
          | error e => rw [ht] at h; simp at h
          | ok v =>
              rw [ht] at h
              cases hl : arrayComplexLoop env cache rest with
              | error e => rw [hl] at h; simp at h
              | ok vs2 =>
                  rw [hl] at h
                  simp only [Except.ok.injEq] at h
                  subst h
                  obtain ⟨ihlen, ihi⟩ := ih vs2 hl
                  refine ⟨by simp [ihlen], ?_⟩
                  intro i
                  cases i with
                  | zero => simp [ht, Except.toOption]
                  | succ n => simp [ihi n]

theorem arrayScalarLoop_ok (env : PyEnv) (cache : DtCache) (element : Element) :
    ∀ (r i : Nat) (vs : List PyVal),
      arrayScalarLoop env cache element i r = .ok vs →
      vs.length = r ∧
      ∀ j : Nat, j < r →
        vs[j]? = (getScalarValue env cache element (i + j)).toOption := by
  intro r
  induction r with
  | zero =>
      intro i vs h
      simp only [arrayScalarLoop] at h
      cases h
      simp
  | succ n ih =>
      intro i vs h
      simp only [arrayScalarLoop] at h
      cases hg : getScalarValue env cache element i with
      | error e => rw [hg] at h; simp at h
      | ok v =>
          rw [hg] at h
          cases hl : arrayScalarLoop env cache element (i + 1) n with
          | error e => rw [hl] at h; simp at h
          | ok vs2 =>
              rw [hl] at h
              simp only [Except.ok.injEq] at h
              subst h
              obtain ⟨ihlen, ihj⟩ := ih (i + 1) vs2 hl
              refine ⟨by simp [ihlen], ?_⟩
              intro j hj
              cases j with
              | zero => simp [hg, Except.toOption]
              | succ m =>
                  have hm : m < n := by omega
                  have := ihj m hm
                  have harith : i + 1 + m = i + (m + 1) := by omega
                  rw [harith] at this
                  simp [this]

/-- The last sub-element (in native `getElementAt` order) among the
successfully fetched entries of `l` whose own name is `nm`. -/
def lastSubNamed (nm : String) : List (Option Element) → Option Element
  | [] => Option.none
  | Option.none :: rest => lastSubNamed nm rest
  | some s :: rest =>
    match lastSubNamed nm rest with
    | some t => some t
    | Option.none => if s.name = nm then some s else Option.none

theorem dictLookup_dictSet_self (d : List (String × PyVal)) (k : String) (v : PyVal) :
    dictLookup (dictSet d k v) k = some v := by
  induction d with
  | nil => simp [dictSet, dictLookup]
  | cons p rest ih =>
      obtain ⟨k2, v2⟩ := p
      by_cases h : k2 = k <;> simp [dictSet, dictLookup, h, ih]

theorem dictLookup_dictSet_ne (d : List (String × PyVal)) (k nm : String) (v : PyVal)
    (h : k ≠ nm) : dictLookup (dictSet d k v) nm = dictLookup d nm := by
  induction d with
  | nil => simp [dictSet, dictLookup, h]
  | cons p rest ih =>
      obtain ⟨k2, v2⟩ := p
      by_cases h2 : k2 = k
      · subst h2; simp [dictSet, dictLookup, h]
      · simp [dictSet, dictLookup, h2, ih]

theorem complexLoop_ok (env : PyEnv) (cache : DtCache) :
    ∀ (l : List (Option Element)) (d0 d : List (String × PyVal)),
      complexLoop env cache l d0 = .ok d →
      ∀ nm, dictLookup d nm =
        (match lastSubNamed nm l with
         | some s => (blpapi_Element_toPy env cache s).toOption
         | Option.none => dictLookup d0 nm) := by
  intro l
  induction l with
  | nil =>
      intro d0 d h nm
      simp only [complexLoop] at h
      cases h
      simp [lastSubNamed]
  | cons hd rest ih =>
      intro d0 d h nm
      cases hd with
      | none => simp [complexLoop] at h
      | some s =>
          simp only [complexLoop] at h
          cases ht : blpapi_Element_toPy env cache s with
          | error e => rw [ht] at h; simp at h
          | ok v =>
              rw [ht] at h
              rw [ih (dictSet d0 s.name v) d h nm]
              simp only [lastSubNamed]
              cases hlast : lastSubNamed nm rest with
              | some t => simp
              | none =>
                  by_cases hn : s.name = nm
                  · subst hn
                    simp [ht, dictLookup_dictSet_self, Except.toOption]
                  · simp [hn, dictLookup_dictSet_ne d0 s.name nm v hn]

/-! ## Claims about the array and record converters -/

/-- **C6**: a successful array conversion yields an ordered sequence whose
length equals the element's value count and whose i-th entry is the recursive
conversion of the sub-element at index i when the schema type definition is
complex, and the scalar converter's result at index i otherwise; the
complex/scalar decision is a single per-array read of the schema type
definition, and output order matches native value order. -/
theorem C6_array_conversion (env : PyEnv) (cache : DtCache) (element : Element)
    (vs : List PyVal)
    (h : arrayElementToPy env cache element = .ok (.list vs)) :
    vs.length = element.numValues ∧
    ∀ i : Nat, i < element.numValues →
      vs[i]? = (if element.typeIsComplex then
          (blpapi_Element_getValueAsElement element i).bind
            (fun sub => (blpapi_Element_toPy env cache sub).toOption)
        else
          (getScalarValue env cache element i).toOption) := by
  cases htc : element.typeIsComplex with
  | true =>
      simp only [arrayElementToPy, htc, if_true] at h
      cases hl : arrayComplexLoop env cache element.valueElements with
      | error e => rw [hl] at h; simp at h
      | ok vs0 =>
          rw [hl] at h
          simp only [Except.ok.injEq, PyVal.list.injEq] at h
          subst h
          obtain ⟨hlen, hi⟩ := arrayComplexLoop_ok env cache element.valueElements vs0 hl
          refine ⟨by simp [hlen, Element.numValues, htc], ?_⟩
          intro i _

          simp [htc, hi i, blpapi_Element_getValueAsElement_eq_bind]
  | false =>
      simp only [arrayElementToPy, htc, Bool.false_eq_true, if_false] at h
      cases hl : arrayScalarLoop env cache element 0 element.numValues with
      | error e => rw [hl] at h; simp at h
      | ok vs0 =>
          rw [hl] at h
          simp only [Except.ok.injEq, PyVal.list.injEq] at h
          subst h
          obtain ⟨hlen, hj⟩ := arrayScalarLoop_ok env cache element element.numValues 0 vs0 hl
          refine ⟨hlen, ?_⟩
          intro i hilt
          have := hj i hilt
          rw [Nat.zero_add] at this
          simp [htc, this]

/-- Witness for C6: the array [1, 2, 3] converts to the ordered sequence
[1, 2, 3]; its length matches the value count and entry 1 is the scalar
conversion at index 1. -/
theorem C6_array_conversion_witness :
    ([PyVal.int 1, PyVal.int 2, PyVal.int 3] : List PyVal).length
        = intsArrayElement.numValues ∧
    ([PyVal.int 1, PyVal.int 2, PyVal.int 3] : List PyVal)[1]?
        = (if intsArrayElement.typeIsComplex then
            (blpapi_Element_getValueAsElement intsArrayElement 1).bind
              (fun sub => (blpapi_Element_toPy pyEnvAllOk emptyDtCache sub).toOption)
          else
            (getScalarValue pyEnvAllOk emptyDtCache intsArrayElement 1).toOption) :=
  ⟨(C6_array_conversion pyEnvAllOk emptyDtCache intsArrayElement
      [PyVal.int 1, PyVal.int 2, PyVal.int 3]
      (by simp [arrayElementToPy, arrayScalarLoop, getScalarValue, intsArrayElement,
        Element.typeIsComplex, Element.numValues, Element.scalarValues, Element.datatype,
        blpapi_Element_getValueAsInt64, BLPAPI_DATATYPE_BOOL, BLPAPI_DATATYPE_BYTE,
        BLPAPI_DATATYPE_INT32, BLPAPI_DATATYPE_INT64])).1,
   (C6_array_conversion pyEnvAllOk emptyDtCache intsArrayElement
      [PyVal.int 1, PyVal.int 2, PyVal.int 3]
      (by simp [arrayElementToPy, arrayScalarLoop, getScalarValue, intsArrayElement,
        Element.typeIsComplex, Element.numValues, Element.scalarValues, Element.datatype,
        blpapi_Element_getValueAsInt64, BLPAPI_DATATYPE_BOOL, BLPAPI_DATATYPE_BYTE,
        BLPAPI_DATATYPE_INT32, BLPAPI_DATATYPE_INT64])).2 1 (by decide)⟩

/-- **C7**: a successful record conversion maps each present field name to
the converted value of the *last* sub-element (in native order) carrying that
name — the key is the sub-element's own name, and a duplicated name is
resolved last-write-wins; names carried by no sub-element are absent. -/
theorem C7_complex_conversion (env : PyEnv) (cache : DtCache) (element : Element)
    (d : List (String × PyVal))
    (h : complexElementToPy env cache element = .ok (.dict d)) :
    ∀ nm : String, dictLookup d nm =
      (match lastSubNamed nm element.subElements with
       | some s => (blpapi_Element_toPy env cache s).toOption
       | Option.none => Option.none) := by
  intro nm
  simp only [complexElementToPy] at h
  cases hl : complexLoop env cache element.subElements [] with
  | error e => rw [hl] at h; simp at h
  | ok d0 =>
      rw [hl] at h
      simp only [Except.ok.injEq, PyVal.dict.injEq] at h
      subst h
      rw [complexLoop_ok env cache element.subElements [] d0 hl nm]
      cases lastSubNamed nm element.subElements <;> simp [dictLookup]

/-- Witness for C7: a record presenting "A" then "B" under the same name "X"
maps "X" to "B". -/
theorem C7_complex_conversion_witness :
    dictLookup [("X", PyVal.str "B")] "X" =
      (match lastSubNamed "X" dupFieldElement.subElements with
       | some s => (blpapi_Element_toPy pyEnvAllOk emptyDtCache s).toOption
       | Option.none => Option.none) :=
  C7_complex_conversion pyEnvAllOk emptyDtCache dupFieldElement [("X", PyVal.str "B")]
    (by simp [complexElementToPy, complexLoop, blpapi_Element_toPy, getScalarValue,
      dupFieldElement, dictSet, Element.isComplexType, Element.isArray, Element.isNull,
      Element.subElements, Element.name, Element.datatype, Element.scalarValues,
      blpapi_Element_getValueAsString, BLPAPI_DATATYPE_BOOL, BLPAPI_DATATYPE_BYTE,
      BLPAPI_DATATYPE_INT32, BLPAPI_DATATYPE_INT64, BLPAPI_DATATYPE_FLOAT32,
      BLPAPI_DATATYPE_FLOAT64, BLPAPI_DATATYPE_CHAR, BLPAPI_DATATYPE_STRING,
      BLPAPI_DATATYPE_ENUMERATION]) "X"

end FfiUtils
